import Mathlib

/-!
Verification of the `iap-token-source` package: a shallow embedding of its
two token-source variants (the signing flow and the metadata flow), its
credential resolution, and the reuse-token cache, with theorems settling
the specified properties.

Times are modelled as `Int` Unix seconds.  External crypto and transport
primitives (PEM decoding, PKCS parsing, HTTP POST/GET) are injected as
function-valued parameters, mirroring the dependency injection in the
source (`PostFormer`, `metadata.Get`).
-/

namespace IAPModel

/-- The base uri of the google oauth API (`TokenURI` in the source). -/
def TokenURI : String := "https://www.googleapis.com/oauth2/v4/token"

/-- An oauth2 token as returned by both token sources
(`oauth2.Token`: AccessToken, TokenType, Expiry). -/
structure OToken where
  accessToken : String
  tokenType : String
  expiry : Int
  deriving Repr, DecidableEq

/-- The JWS claim set built by the signing-flow `tokenSource.Token`
(`jws.ClaimSet` with Iss, Aud, Iat, Exp and one private claim
`target_audience`). -/
structure ClaimSet where
  iss : String
  aud : String
  iat : Int
  exp : Int
  targetAudience : String
  deriving Repr, DecidableEq

/-- The JWS header built by the signing-flow `tokenSource.Token`
(`jws.Header` with Algorithm and Typ). -/
structure JWSHeader where
  algorithm : String
  typ : String
  deriving Repr, DecidableEq

/-- The claim set constructed in `tokenSource.Token`:
Iss = service-account email, Aud = TokenURI, Iat = now, Exp = now + 1 hour,
private claim target_audience = the configured audience. -/
def mkClaimSet (email audience : String) (iat : Int) : ClaimSet :=
  { iss := email
    aud := TokenURI
    iat := iat
    exp := iat + 3600
    targetAudience := audience }

/-- The header constructed in `tokenSource.Token`: Algorithm RS256, Typ JWT. -/
def mkJWSHeader : JWSHeader :=
  { algorithm := "RS256", typ := "JWT" }

/-- A parsed HTTP response body, as seen by `json.Unmarshal` into the
anonymous struct with fields token_type, id_token, expires_in.

`malformed` is a body that is not valid JSON (Unmarshal fails).
`fields` is a valid JSON object: `tokenType`, `idToken`, `expiresIn` are the
values Unmarshal extracts (Go zero values `""`/`0` when the JSON omits the
field); `isErrorDoc` records whether the document semantically represents an
OAuth error response (e.g. carries an `error` member) — Go's Unmarshal
ignores unknown members, so the code never inspects this component. -/
inductive Body where
  | malformed : Body
  | fields (tokenType idToken : String) (expiresIn : Int) (isErrorDoc : Bool) : Body
  deriving Repr, DecidableEq

/-- The outcome of `PostFormer.PostForm`: either a transport error, or a
response whose body read may fail (`readErr`) and otherwise yields `body`. -/
inductive PostResult where
  | transportError : PostResult
  | response (readErr : Bool) (body : Body) : PostResult
  deriving Repr, DecidableEq

/-- Lines 173–198 of the signing-flow `tokenSource.Token`: unmarshal the
body, default token_type to "Bearer", compute expiry from expires_in
(`exp` is the assertion expiry `iat + 3600`, used when expires_in is 0). -/
def parseTokenResponse (body : Body) (iat exp : Int) : Except String OToken :=
  match body with
  | .malformed => .error "failed to unmarshal request body"
  | .fields tokenType idToken expiresIn _ =>
    let tokenType := if tokenType = "" then "Bearer" else tokenType
    let expiry := if expiresIn ≠ 0 then iat + expiresIn else exp
    .ok { accessToken := idToken, tokenType := tokenType, expiry := expiry }

/-- Lines 162–198 of the signing-flow `tokenSource.Token`: the POST and
response handling.  Transport failure and body-read failure each abort with
an error; otherwise the body is parsed. -/
def exchangeToken (post : PostResult) (iat exp : Int) : Except String OToken :=
  match post with
  | .transportError => .error "failed to POST token request"
  | .response readErr body =>
    if readErr then .error "failed to read response body"
    else parseTokenResponse body iat exp

/-- The signing-flow `tokenSource.Token` as a whole: build the claim set at
time `now`, send it through the injected PostFormer (modelled as a function
from the signed assertion's header and claim set to a `PostResult`), and
parse the response.  `jws.Encode` is modelled as the identity on
(header, claim set) since the test double decodes the assertion back. -/
def tokenSourceToken (email audience : String) (now : Int)
    (postFormer : JWSHeader → ClaimSet → PostResult) : Except String OToken :=
  let iat := now
  let exp := now + 3600
  let cs := mkClaimSet email audience iat
  exchangeToken (postFormer mkJWSHeader cs) iat exp

/-- Helper: whether an `Except` is an error. -/
def isErr {α : Type} (e : Except String α) : Bool :=
  match e with
  | .error _ => true
  | .ok _ => false

/-! ### Private-key parsing (`parseKey` in the signing-flow source) -/

/-- Raw key bytes. -/
def KeyBytes : Type := List Nat

/-- The result of an x509 private-key parse: `rsa` keys (identified by an
abstract index) are what `*rsa.PrivateKey` type assertion accepts;
`nonRSA` is any other key type PKCS#8 can yield (ECDSA, Ed25519, ...).
`x509.ParsePKCS1PrivateKey` only ever yields RSA keys. -/
inductive ParsedKey where
  | rsa (k : Nat) : ParsedKey
  | nonRSA (k : Nat) : ParsedKey
  deriving Repr, DecidableEq

/-- The external crypto primitives used by `parseKey`, injected abstractly:
`pemDecode` is `pem.Decode` (returns the block bytes, or none),
`parsePKCS8` is `x509.ParsePKCS8PrivateKey`, `parsePKCS1` is
`x509.ParsePKCS1PrivateKey` (always an RSA key on success). -/
structure CryptoOracle where
  pemDecode : KeyBytes → Option KeyBytes
  parsePKCS8 : KeyBytes → Option ParsedKey
  parsePKCS1 : KeyBytes → Option Nat

/-- `parseKey` from the signing-flow source: PEM-decode, try PKCS#8, fall
back to PKCS#1 when PKCS#8 errors, then assert the parsed key is RSA. -/
def parseKey (c : CryptoOracle) (key : KeyBytes) : Except String Nat :=
  match c.pemDecode key with
  | none => .error "invalid private key data"
  | some bytes =>
    let parsed : Option ParsedKey :=
      match c.parsePKCS8 bytes with
      | some pk => some pk
      | none =>
        match c.parsePKCS1 bytes with
        | some k => some (.rsa k)
        | none => none
    match parsed with
    | none => .error "private key should be a PEM or plain PKCS1 or PKCS8"
    | some (.rsa k) => .ok k
    | some (.nonRSA _) => .error "private key is invalid"

/-! ### Signing-flow construction (`New(audience, opts...)`) -/

/-- The relevant fields of the `jwt.Config` produced by
`google.JWTConfigFromJSON`: the service-account email and PEM key bytes. -/
structure JWTConfig where
  email : String
  privateKey : KeyBytes

/-- The state of a constructed signing-flow `IAP` value: the audience and
the cache seeded into `oauth2.ReuseTokenSource(tok, ts)`. -/
structure IAPState where
  audience : String
  cached : Option OToken

/-- The signing-flow `New(audience, opts...)` after option processing: parse
the private key (aborting with a wrapped error on failure), eagerly fetch
one token via `ts.Token()` (aborting with a wrapped error on failure), and
seed the reuse cache with the fetched token. -/
def newIAP (audience : String) (cfg : JWTConfig) (c : CryptoOracle) (now : Int)
    (postFormer : JWSHeader → ClaimSet → PostResult) : Except String IAPState :=
  match parseKey c cfg.privateKey with
  | .error e => .error ("failed to parse private key: " ++ e)
  | .ok _key =>
    match tokenSourceToken cfg.email audience now postFormer with
    | .error e => .error ("failed to get token: " ++ e)
    | .ok tok => .ok { audience := audience, cached := some tok }

/-! ### Metadata-flow token source (`metadataTokenSource.Token` in iap.go) -/

/-- `metadataTokenSource.Token`: GET the identity endpooint with the
audience query parameter (`metadata.Get` injected as `get`); on failure
wrap the error; on success wrap the raw body as a Bearer token expiring 30
minutes from now. -/
def metadataToken (audience : String) (get : String → Except String String)
    (now : Int) : Except String OToken :=
  match get ("instance/service-accounts/default/identity?audience=" ++ audience) with
  | .error e => .error ("failed to get token from metadata service: " ++ e)
  | .ok data =>
    .ok { accessToken := data, tokenType := "Bearer", expiry := now + 30 * 60 }

/-! ### Credential resolution (`getTokenSource` in iap.go) -/

/-- The result of `os.Stat` on the well-known credentials file, as the code
distinguishes it: success, a not-exist error, or any other error. -/
inductive StatResult where
  | statOk : StatResult
  | statNotExist : StatResult
  | statError (e : String) : StatResult
  deriving Repr, DecidableEq

/-- The `jwt.Config` produced for the signing path of `getTokenSource`:
credential fields plus the mutations applied by the code
(`UseIDToken = true`, private claim `target_audience = audience`). -/
structure ResolvedConfig where
  email : String
  privateKey : KeyBytes
  useIDToken : Bool
  targetAudience : String

/-- The token source `getTokenSource` returns: a signing-flow source built
from a credentials file, or the metadata-backed source. -/
inductive TokenSrc where
  | signing (cfg : ResolvedConfig) : TokenSrc
  | metadata (audience : String) : TokenSrc

/-- The ambient environment `getTokenSource` consults: the
`GOOGLE_APPLICATION_CREDENTIALS` variable ("" when unset), the well-known
path and the result of stat-ing it, `readCredentialsFile` per filename (the
credential fields on success, an error otherwise), and `metadata.OnGCE()`. -/
structure Env where
  envCreds : String
  wellKnownPath : String
  wellKnownStat : StatResult
  readCreds : String → Except String JWTConfig
  onGCE : Bool

/-- The signing branch of `getTokenSource` (lines 84–94 of iap.go): read
the credentials file, set `UseIDToken` and the `target_audience` private
claim, and return the file-based token source. -/
def useCredentialsFile (env : Env) (filename audience : String) :
    Except String TokenSrc :=
  match env.readCreds filename with
  | .error e => .error e
  | .ok cfg =>
    .ok (.signing
      { email := cfg.email
        privateKey := cfg.privateKey
        useIDToken := true
        targetAudience := audience })

/-- `getTokenSource` from iap.go: resolve a filename from the argument, the
environment variable, then the well-known file (propagating unexpected stat
errors); use the file if one was resolved, else the metadata source when on
GCE, else fail. -/
def getTokenSource (env : Env) (filename audience : String) :
    Except String TokenSrc :=
  let filename :=
    if filename = "" then
      (if env.envCreds ≠ "" then env.envCreds else "")
    else filename
  if filename = "" then
    match env.wellKnownStat with
    | .statError e => .error e
    | .statOk => useCredentialsFile env env.wellKnownPath audience
    | .statNotExist =>
      if env.onGCE then .ok (.metadata audience)
      else .error "unable to determine credentials source"
  else useCredentialsFile env filename audience

/-! ### The reuse-token cache

golang.org/x/oauth2's `ReuseTokenSource` is a dependency, not part of this
repository's sources; it is modelled from the spec below. -/

/-- Modelled from the spec: the "defined safety margin" before expiry
within which the cached token is no longer reused (oauth2's
`expiryDelta`, 10 seconds). -/
def expiryDelta : Int := 10

/-- Modelled from the spec: a cached token is reusable at `now` unless it
is unset (empty access token) or within the safety margin of its expiry. -/
def tokenValid (t : OToken) (now : Int) : Bool :=
  t.accessToken ≠ "" && !(t.expiry - expiryDelta < now)

/-- Modelled from the spec: one `Token()` call on the reuse source.
Returns the cached token when still valid; otherwise synchronously invokes
the exchanger, stores the result, and returns it.  The `Nat` counts the
network exchanges this call performed (0 or 1). -/
def reuseTokenStep (exch : Int → Except String OToken)
    (cached : Option OToken) (now : Int) :
    Except String (OToken × Option OToken × Nat) :=
  match cached with
  | some t =>
    if tokenValid t now then .ok (t, some t, 0)
    else
      match exch now with
      | .error e => .error e
      | .ok tok => .ok (tok, some tok, 1)
  | none =>
    match exch now with
    | .error e => .error e
    | .ok tok => .ok (tok, some tok, 1)

/-- A sequence of `Token()` calls at the given times, threading the cache
and summing the number of network exchanges performed. -/
def runTokenCalls (exch : Int → Except String OToken)
    (cached : Option OToken) : List Int → Except String (Option OToken × Nat)
  | [] => .ok (cached, 0)
  | now :: rest =>
    match reuseTokenStep exch cached now with
    | .error e => .error e
    | .ok (_, cached2, n) =>
      match runTokenCalls exch cached2 rest with
      | .error e => .error e
      | .ok (cf, m) => .ok (cf, n + m)

/-- Whether a body (a valid JSON document) represents an OAuth error
response; the code never inspects this. -/
def Body.isErrorResponse : Body → Bool
  | .malformed => false
  | .fields _ _ _ e => e

/-- Whether a body fails `json.Unmarshal`. -/
def Body.isMalformed : Body → Bool
  | .malformed => true
  | .fields _ _ _ _ => false

/-- The exact failure condition of `exchangeToken` as the code implements
it: transport failure, body-read failure, or unparseable body. -/
def postFails : PostResult → Bool
  | .transportError => true
  | .response readErr body => readErr || body.isMalformed

/-! ## Theorems -/

/-- C1: every signing-flow token fetch signs an assertion whose claim set
has issuer = the service-account email, audience = the token endpoint
`TokenURI` (not the caller's target audience), issued-at = the fetch time,
expiry = issued-at + 1 hour, and private claim `target_audience` = the
configured audience; the JWS header declares RS256 and type JWT;
`tokenSourceToken` sends exactly this assertion to the PostFormer. -/
theorem signing_assertion_claims (email audience : String) (now : Int)
    (postFormer : JWSHeader → ClaimSet → PostResult) :
    (mkClaimSet email audience now).iss = email ∧
    (mkClaimSet email audience now).aud = TokenURI ∧
    (mkClaimSet email audience now).iat = now ∧
    (mkClaimSet email audience now).exp = now + 3600 ∧
    (mkClaimSet email audience now).targetAudience = audience ∧
    mkJWSHeader.algorithm = "RS256" ∧
    mkJWSHeader.typ = "JWT" ∧
    tokenSourceToken email audience now postFormer =
      exchangeToken (postFormer mkJWSHeader (mkClaimSet email audience now))
        now (now + 3600) :=
  ⟨rfl, rfl, rfl, rfl, rfl, rfl, rfl, rfl⟩

/-- C2: in the signing-flow fetch, a response with `expires_in` absent or 0
yields expiry = issuance time + 1 hour; a response with a positive
`expires_in` of `n` seconds yields expiry = issuance time + n. -/
theorem expiry_from_expires_in (email audience tokenType idToken : String)
    (errDoc : Bool) (now n : Int) (hn : 0 < n) :
    tokenSourceToken email audience now
        (fun _ _ => .response false (.fields tokenType idToken 0 errDoc)) =
      .ok { accessToken := idToken
            tokenType := if tokenType = "" then "Bearer" else tokenType
            expiry := now + 3600 } ∧
    tokenSourceToken email audience now
        (fun _ _ => .response false (.fields tokenType idToken n errDoc)) =
      .ok { accessToken := idToken
            tokenType := if tokenType = "" then "Bearer" else tokenType
            expiry := now + n } := by
  constructor
  · simp [tokenSourceToken, exchangeToken, parseTokenResponse]
  · simp [tokenSourceToken, exchangeToken, parseTokenResponse, hn.ne']

/-- Witness for C2 at `expires_in = 120` and `expires_in = 0`. -/
theorem expiry_from_expires_in_witness :
    tokenSourceToken "e@x" "aud" 1000
        (fun _ _ => .response false (.fields "" "tok" 0 false)) =
      .ok { accessToken := "tok", tokenType := "Bearer", expiry := 4600 } ∧
    tokenSourceToken "e@x" "aud" 1000
        (fun _ _ => .response false (.fields "" "tok" 120 false)) =
      .ok { accessToken := "tok", tokenType := "Bearer", expiry := 1120 } := by
  have h := expiry_from_expires_in "e@x" "aud" "" "tok" false 1000 120 (by decide)
  exact ⟨h.1, h.2⟩

/-- C9: a metadata-flow fetch wraps the raw response body as the access
token with type Bearer and expiry = fetch time + 30 minutes; on any
metadata-service failure it returns an error and no token. -/
theorem metadataToken_spec (audience data e : String) (now : Int)
    (get : String → Except String String) :
    (get ("instance/service-accounts/default/identity?audience=" ++ audience) =
        .ok data →
      metadataToken audience get now =
        .ok { accessToken := data, tokenType := "Bearer", expiry := now + 30 * 60 }) ∧
    (get ("instance/service-accounts/default/identity?audience=" ++ audience) =
        .error e →
      metadataToken audience get now =
        .error ("failed to get token from metadata service: " ++ e)) := by
  constructor
  · intro h
    simp [metadataToken, h]
  · intro h
    simp [metadataToken, h]

/-- Witness for C9 on a concrete metadata success and failure. -/
theorem metadataToken_spec_witness :
    metadataToken "aud" (fun _ => .ok "raw-token") 100 =
      .ok { accessToken := "raw-token", tokenType := "Bearer", expiry := 1900 } ∧
    metadataToken "aud" (fun _ => .error "boom") 100 =
      .error "failed to get token from metadata service: boom" :=
  ⟨(metadataToken_spec "aud" "raw-token" "boom" 100 (fun _ => .ok "raw-token")).1 rfl,
   (metadataToken_spec "aud" "raw-token" "boom" 100 (fun _ => .error "boom")).2 rfl⟩

/-- C3: two `Token()` calls while the first fetched token is still within
its validity window perform exactly one exchange (the second call returns
the cached token); a second call after the token's expiry performs a second
exchange. -/
theorem reuse_cache_exchanges (exch : Int → Except String OToken)
    (t0 t1 t2 : Int) (tok tok2 : OToken)
    (h0 : exch t0 = .ok tok)
    (h1 : tokenValid tok t1 = true)
    (h2 : tok.expiry < t2)
    (h3 : exch t2 = .ok tok2) :
    runTokenCalls exch none [t0, t1] = .ok (some tok, 1) ∧
    runTokenCalls exch none [t0, t2] = .ok (some tok2, 2) := by
  have hinv : tokenValid tok t2 = false := by
    have : tok.expiry - expiryDelta < t2 := by
      have : (0 : Int) < expiryDelta := by decide
      omega
    simp [tokenValid, this]
  constructor
  · simp [runTokenCalls, reuseTokenStep, h0, h1]
  · simp [runTokenCalls, reuseTokenStep, h0, h3, hinv]

/-- Witness for C3: a second call at time 100 (inside the window of a token
expiring at 3600) reuses the cache; a second call at 4000 re-exchanges. -/
theorem reuse_cache_exchanges_witness :
    runTokenCalls (fun now => .ok ⟨"tok", "Bearer", now + 3600⟩) none [0, 100] =
      .ok (some ⟨"tok", "Bearer", 3600⟩, 1) ∧
    runTokenCalls (fun now => .ok ⟨"tok", "Bearer", now + 3600⟩) none [0, 4000] =
      .ok (some ⟨"tok", "Bearer", 7600⟩, 2) :=
  reuse_cache_exchanges (fun now => .ok ⟨"tok", "Bearer", now + 3600⟩)
    0 100 4000 ⟨"tok", "Bearer", 3600⟩ ⟨"tok", "Bearer", 7600⟩
    rfl (by decide) (by decide) rfl

/-- C4: with a valid service-account key, `New` followed by `Token()`
yields a token whose type defaults to "Bearer" when the response omits
`token_type`; in particular, with email hello-world@example.com, audience
test@example.com, and a mock endpoint returning only
`id_token = hello-world`, the token is (Bearer, hello-world). -/
theorem tokenType_default_bearer (cfg : JWTConfig) (c : CryptoOracle) (k : Nat)
    (audience idToken : String) (now expiresIn : Int) (errDoc : Bool)
    (hkey : parseKey c cfg.privateKey = .ok k) :
    (∃ tok, newIAP audience cfg c now
        (fun _ _ => .response false (.fields "" idToken expiresIn errDoc)) =
          .ok { audience := audience, cached := some tok } ∧
        tok.tokenType = "Bearer" ∧ tok.accessToken = idToken) ∧
    newIAP "test@example.com"
        { email := "hello-world@example.com", privateKey := cfg.privateKey } c now
        (fun _ _ => .response false (.fields "" "hello-world" 0 false)) =
      .ok { audience := "test@example.com"
            cached := some { accessToken := "hello-world", tokenType := "Bearer"
                             expiry := now + 3600 } } := by
  constructor
  · refine ⟨{ accessToken := idToken, tokenType := "Bearer"
              expiry := if expiresIn = 0 then now + 3600 else now + expiresIn }, ?_, rfl, rfl⟩
    simp [newIAP, hkey, tokenSourceToken, exchangeToken, parseTokenResponse]
  · simp [newIAP, hkey, tokenSourceToken, exchangeToken, parseTokenResponse]

/-- Witness for C4 with a concrete crypto oracle and the end-to-end mock. -/
theorem tokenType_default_bearer_witness :
    newIAP "test@example.com"
        { email := "hello-world@example.com", privateKey := [1, 2, 3] }
        { pemDecode := fun b => some b
          parsePKCS8 := fun _ => some (.rsa 7)
          parsePKCS1 := fun _ => none } 0
        (fun _ _ => .response false (.fields "" "hello-world" 0 false)) =
      .ok { audience := "test@example.com"
            cached := some { accessToken := "hello-world", tokenType := "Bearer"
                             expiry := 3600 } } := by
  have h := tokenType_default_bearer
    { email := "hello-world@example.com", privateKey := [1, 2, 3] }
    { pemDecode := fun b => some b
      parsePKCS8 := fun _ => some (.rsa 7)
      parsePKCS1 := fun _ => none } 7
    "test@example.com" "hello-world" 0 0 false rfl
  simpa using h.2

/-- C6: signing-flow `New` eagerly performs one token exchange before
returning: if that initial exchange fails, `New` returns an error and no
IAP value; if it succeeds, the fetched token seeds the cache. -/
theorem new_eager_fetch (audience : String) (cfg : JWTConfig) (c : CryptoOracle)
    (k : Nat) (now : Int) (pf : JWSHeader → ClaimSet → PostResult)
    (hkey : parseKey c cfg.privateKey = .ok k) :
    (∀ e, tokenSourceToken cfg.email audience now pf = .error e →
      newIAP audience cfg c now pf = .error ("failed to get token: " ++ e)) ∧
    (∀ tok, tokenSourceToken cfg.email audience now pf = .ok tok →
      newIAP audience cfg c now pf = .ok { audience := audience, cached := some tok }) := by
  constructor
  · intro e he
    simp [newIAP, hkey, he]
  · intro tok htok
    simp [newIAP, hkey, htok]

/-- Witness for C6: a transport failure at construction aborts `New`; a
successful mock exchange seeds the cache with the fetched token. -/
theorem new_eager_fetch_witness :
    newIAP "aud" { email := "e@x", privateKey := [1] }
        { pemDecode := fun b => some b
          parsePKCS8 := fun _ => some (.rsa 3)
          parsePKCS1 := fun _ => none } 0 (fun _ _ => .transportError) =
      .error "failed to get token: failed to POST token request" ∧
    newIAP "aud" { email := "e@x", privateKey := [1] }
        { pemDecode := fun b => some b
          parsePKCS8 := fun _ => some (.rsa 3)
          parsePKCS1 := fun _ => none } 0
        (fun _ _ => .response false (.fields "T" "tok" 0 false)) =
      .ok { audience := "aud"
            cached := some { accessToken := "tok", tokenType := "T", expiry := 3600 } } :=
  ⟨(new_eager_fetch "aud" { email := "e@x", privateKey := [1] }
      { pemDecode := fun b => some b
        parsePKCS8 := fun _ => some (.rsa 3)
        parsePKCS1 := fun _ => none } 3 0 (fun _ _ => .transportError) rfl).1
      "failed to POST token request" rfl,
   (new_eager_fetch "aud" { email := "e@x", privateKey := [1] }
      { pemDecode := fun b => some b
        parsePKCS8 := fun _ => some (.rsa 3)
        parsePKCS1 := fun _ => none } 3 0
      (fun _ _ => .response false (.fields "T" "tok" 0 false)) rfl).2
      { accessToken := "tok", tokenType := "T", expiry := 3600 } rfl⟩

/-- C7: `parseKey` fails exactly when the input is not valid PEM, when
neither PKCS#8 nor PKCS#1 parsing succeeds, or when the parsed key is not
RSA (PKCS#8 is tried first, PKCS#1 as fallback); and a key-parse error
makes construction return a wrapped key-parse error — never a token. -/
theorem parseKey_error_conditions (c : CryptoOracle) (key : KeyBytes)
    (email audience : String) (now : Int) (pf : JWSHeader → ClaimSet → PostResult) :
    (isErr (parseKey c key) = true ↔
      c.pemDecode key = none ∨
      (∃ bytes, c.pemDecode key = some bytes ∧
        c.parsePKCS8 bytes = none ∧ c.parsePKCS1 bytes = none) ∨
      (∃ bytes j, c.pemDecode key = some bytes ∧
        c.parsePKCS8 bytes = some (.nonRSA j))) ∧
    (∀ e, parseKey c key = .error e →
      newIAP audience { email := email, privateKey := key } c now pf =
        .error ("failed to parse private key: " ++ e)) := by
  constructor
  · cases hpem : c.pemDecode key with
    | none => simp [parseKey, isErr, hpem]
    | some bytes =>
      cases h8 : c.parsePKCS8 bytes with
      | none =>
        cases h1 : c.parsePKCS1 bytes with
        | none => simp [parseKey, isErr, hpem, h8, h1]
        | some k => simp [parseKey, isErr, hpem, h8, h1]
      | some pk =>
        cases pk with
        | rsa k => simp [parseKey, isErr, hpem, h8]
        | nonRSA j => simp [parseKey, isErr, hpem, h8]
  · intro e he
    simp [newIAP, he]

/-- Witness for C7: a blob PEM-decodable but parseable by neither PKCS#8
nor PKCS#1 satisfies the failure condition, and construction fails with the
wrapped key-parse error. -/
theorem parseKey_error_conditions_witness :
    isErr (parseKey
      { pemDecode := fun b => some b
        parsePKCS8 := fun _ => none
        parsePKCS1 := fun _ => none } [9]) = true ∧
    newIAP "aud" { email := "e@x", privateKey := [9] }
        { pemDecode := fun b => some b
          parsePKCS8 := fun _ => none
          parsePKCS1 := fun _ => none } 0 (fun _ _ => .transportError) =
      .error "failed to parse private key: private key should be a PEM or plain PKCS1 or PKCS8" :=
  ⟨(parseKey_error_conditions
      { pemDecode := fun b => some b
        parsePKCS8 := fun _ => none
        parsePKCS1 := fun _ => none } [9] "e@x" "aud" 0
      (fun _ _ => .transportError)).1.mpr
      (Or.inr (Or.inl ⟨[9], rfl, rfl, rfl⟩)),
   (parseKey_error_conditions
      { pemDecode := fun b => some b
        parsePKCS8 := fun _ => none
        parsePKCS1 := fun _ => none } [9] "e@x" "aud" 0
      (fun _ _ => .transportError)).2
      "private key should be a PEM or plain PKCS1 or PKCS8" rfl⟩

/-- C8 counterexample: a well-formed JSON body that represents an OAuth
error response (e.g. carrying only an `error` member, so all token fields
unmarshal to zero values) does NOT make the exchange fail — the code checks
neither the HTTP status nor error members and returns a token with an empty
access token. -/
theorem exchange_error_body_counterexample :
    Body.isErrorResponse (.fields "" "" 0 true) = true ∧
    exchangeToken (.response false (.fields "" "" 0 true)) 0 3600 =
      .ok { accessToken := "", tokenType := "Bearer", expiry := 3600 } :=
  ⟨rfl, rfl⟩

/-- C8 amended: the exchange fails exactly when the POST transport call
fails, the response body cannot be read, or the body is not parseable
JSON; a parseable body always yields a token, even when it represents an
error response. -/
theorem exchange_error_conditions (post : PostResult) (iat exp : Int) :
    isErr (exchangeToken post iat exp) = postFails post ∧
    exchangeToken .transportError iat exp = .error "failed to POST token request" := by
  constructor
  · cases post with
    | transportError => rfl
    | response readErr body =>
      cases readErr with
      | true => rfl
      | false =>
        cases body with
        | malformed => rfl
        | fields tt it ei ed => rfl
  · rfl

/-- The claim's resolution procedure, stated in its own words: if no
explicit filename is given, use the `GOOGLE_APPLICATION_CREDENTIALS` path
if set; otherwise the well-known default path if that file exists; build
the signing-flow source from a resolved filename; otherwise use the
metadata-backed strategy when on the cloud metadata platform; otherwise
fail.  This is the spec-side definition, to be compared with
`getTokenSource`. -/
def resolveCredentialsSpec (env : Env) (filename audience : String) :
    Except String TokenSrc :=
  let resolved :=
    if filename ≠ "" then filename
    else if env.envCreds ≠ "" then env.envCreds
    else if env.wellKnownStat = .statOk then env.wellKnownPath
    else ""
  if resolved ≠ "" then useCredentialsFile env resolved audience
  else if env.onGCE then .ok (.metadata audience)
  else .error "unable to determine credentials source"

/-- C5: in the metadata-integrated variant, credential resolution follows
the claimed order — explicit filename, then the environment variable, then
the well-known file if it exists, building the signing-flow source from the
resolved file; otherwise metadata when on GCE; otherwise an error.  Stated
as equality with the spec-side procedure, under the assumption that
stat-ing the well-known file reports existence or non-existence (the code
propagates any other stat error, which the claim does not enumerate). -/
theorem getTokenSource_resolution (env : Env) (filename audience : String)
    (hstat : ∀ e, env.wellKnownStat ≠ .statError e)
    (hpath : env.wellKnownPath ≠ "") :
    getTokenSource env filename audience =
      resolveCredentialsSpec env filename audience := by
  by_cases hfn : filename = ""
  · by_cases henv : env.envCreds = ""
    · cases hwk : env.wellKnownStat with
      | statError e => exact absurd hwk (hstat e)
      | statOk => simp [getTokenSource, resolveCredentialsSpec, hfn, henv, hwk, hpath]
      | statNotExist => simp [getTokenSource, resolveCredentialsSpec, hfn, henv, hwk]
    · simp [getTokenSource, resolveCredentialsSpec, hfn, henv]
  · simp [getTokenSource, resolveCredentialsSpec, hfn]

/-- Witness for C5: a concrete environment with no filename, no env var, a
missing well-known file, and GCE detected resolves to the metadata source
on both sides. -/
theorem getTokenSource_resolution_witness :
    getTokenSource
        { envCreds := ""
          wellKnownPath := "/home/u/.config/gcloud/application_default_credentials.json"
          wellKnownStat := .statNotExist
          readCreds := fun _ => .error "unreadable"
          onGCE := true } "" "aud" =
      resolveCredentialsSpec
        { envCreds := ""
          wellKnownPath := "/home/u/.config/gcloud/application_default_credentials.json"
          wellKnownStat := .statNotExist
          readCreds := fun _ => .error "unreadable"
          onGCE := true } "" "aud" :=
  getTokenSource_resolution
    { envCreds := ""
      wellKnownPath := "/home/u/.config/gcloud/application_default_credentials.json"
      wellKnownStat := .statNotExist
      readCreds := fun _ => .error "unreadable"
      onGCE := true } "" "aud" (fun _ h => StatResult.noConfusion h)
    (by decide)

end IAPModel
